import Mathlib

/-!
Shallow embedding of the resilient configuration-driven request-forwarding
pipeline of the astro-webui repository: the numeric parse helper and the
configuration accessor of `app/src/lib/config.ts`, the retrying forwarder of
`app/src/lib/fetchWithRetry.ts`, and the request proxy handlers of
`app/src/pages/api/greetings/index.ts` and `app/src/pages/api/greetings/[id].ts`.
-/

namespace AstroWebui

/-- One base-10 digit character, as recognised by JavaScript parseInt. -/
def isDigit (c : Char) : Bool := '0' ≤ c && c ≤ '9'

/-- Numeric value of a digit character. -/
def digitVal (c : Char) : Nat := c.toNat - 48

/-- Whitespace skipped by JavaScript parseInt before reading the numeral
(the ASCII members of WhiteSpace and LineTerminator). -/
def isJsWhitespace (c : Char) : Bool :=
  c = ' ' || c = '\t' || c = '\n' || c = '\r' || c = Char.ofNat 11 || c = Char.ofNat 12

/-- Value of the longest run of digits at the head of the list, accumulated
onto `acc`; reading stops at the first non-digit. -/
def leadingDigitsVal : List Char → Nat → Nat
  | [], acc => acc
  | c :: rest, acc =>
      if isDigit c then leadingDigitsVal rest (10 * acc + digitVal c) else acc

/-- JavaScript parseInt digit step: `none` when the list does not start with a
digit (parseInt yields NaN), otherwise the value of the longest digit run. -/
def leadingDigits : List Char → Option Nat
  | [] => none
  | c :: rest => if isDigit c then some (leadingDigitsVal rest (digitVal c)) else none

/-- parseInt(value, 10) from JavaScript, idealised to exact integers: skip
leading whitespace, read an optional sign, then the longest run of base-10
digits; `none` models the NaN result when no digit is found. -/
def jsParseIntCore (cs : List Char) : Option Int :=
  match cs.dropWhile isJsWhitespace with
  | [] => none
  | c :: rest =>
      if c = '-' then (leadingDigits rest).map (fun n : Nat => -(n : Int))
      else if c = '+' then (leadingDigits rest).map (fun n : Nat => (n : Int))
      else (leadingDigits (c :: rest)).map (fun n : Nat => (n : Int))

/-- parseInt(value, 10) on a string. -/
def jsParseInt (s : String) : Option Int := jsParseIntCore s.data

/-- parseIntOrDefault from `app/src/lib/config.ts`: parseInt(value, 10), with
the fallback substituted exactly when the result is NaN. -/
def parseIntOrDefault (value : String) (fallback : Int) : Int :=
  match jsParseInt value with
  | none => fallback
  | some n => n

/-- Value of the list when it consists entirely of digits, else `none`. -/
def allDigitsVal : List Char → Nat → Option Nat
  | [], acc => some acc
  | c :: rest, acc =>
      if isDigit c then allDigitsVal rest (10 * acc + digitVal c) else none

/-- Strict digit reading: the whole list must be one or more digits. -/
def refDigits : List Char → Option Nat
  | [] => none
  | c :: rest => if isDigit c then allDigitsVal rest (digitVal c) else none

/-- Strict reading of a signed base-10 numeral from a character list. -/
def refParseIntCore (cs : List Char) : Option Int :=
  match cs with
  | [] => none
  | c :: rest =>
      if c = '-' then (refDigits rest).map (fun n : Nat => -(n : Int))
      else if c = '+' then (refDigits rest).map (fun n : Nat => (n : Int))
      else (refDigits (c :: rest)).map (fun n : Nat => (n : Int))

/-- Modelled from the spec: the "reference base-10 parser" of the testable
properties section — a string is a valid base-10 integer numeral exactly when
it is an optional sign followed by one or more digits and nothing else. -/
def refParseInt (s : String) : Option Int := refParseIntCore s.data

/-- Static fallback for the application description setting, from
`app/src/lib/config.ts`. -/
def DEFAULT_DESCRIPTION : String :=
  "This application manages a greeting service. " ++
  "You can create new greetings, look up existing ones by ID, " ++
  "delete greetings, and browse all stored messages. " ++
  "It communicates with the Spring Cloud Service API backend."

/-- The constructed SSM client: a region and the optional endpoint override
that was spread into the constructor options. -/
structure SSMClient where
  region : String
  endpoint : Option String
deriving DecidableEq, Repr

/-- createSsmClient from `app/src/lib/config.ts`: a client is always
constructed; the endpoint property is present exactly when the
AWS_SSM_ENDPOINT environment value is set and truthy (non-empty). -/
def createSsmClient (envEndpoint : Option String) (region : String) : SSMClient :=
  { region := region
    endpoint :=
      match envEndpoint with
      | some e => if e = "" then none else some e
      | none => none }

/-- Outcome of one GetParameter call against the store: the send either
rejects, or resolves with `Parameter?.Value` being absent or a string. -/
inductive SsmOutcome where
  | failure
  | success (value : Option String)
deriving DecidableEq, Repr

/-- The fully-qualified parameter path built by getParameter. -/
def paramKey (serviceName name : String) : String :=
  "/" ++ serviceName ++ "/" ++ name

/-- getParameter from `app/src/lib/config.ts`: always issues one send through
the client; on success returns `Parameter?.Value ?? fallback` (the nullish
check, so an empty string passes through), on rejection returns the fallback.
The second component counts the send calls performed, always one. -/
def getParameter (_c : SSMClient) (store : String → SsmOutcome)
    (serviceName name fallback : String) : String × Nat :=
  match store (paramKey serviceName name) with
  | .failure => (fallback, 1)
  | .success none => (fallback, 1)
  | .success (some v) => (v, 1)

/-- loadDescription accessor. -/
def loadDescription (c : SSMClient) (store : String → SsmOutcome)
    (serviceName : String) : String :=
  (getParameter c store serviceName "app.description" DEFAULT_DESCRIPTION).1

/-- getApiBackendUrl accessor. -/
def getApiBackendUrl (c : SSMClient) (store : String → SsmOutcome)
    (serviceName : String) : String :=
  (getParameter c store serviceName "api.backend.url" "http://localhost:8080").1

/-- getApiTimeoutMs accessor. -/
def getApiTimeoutMs (c : SSMClient) (store : String → SsmOutcome)
    (serviceName : String) : Int :=
  parseIntOrDefault (getParameter c store serviceName "api.timeout.ms" "5000").1 5000

/-- getApiRetryCount accessor. -/
def getApiRetryCount (c : SSMClient) (store : String → SsmOutcome)
    (serviceName : String) : Int :=
  parseIntOrDefault (getParameter c store serviceName "api.retry.count" "3").1 3

/-- getLogLevel accessor. -/
def getLogLevel (c : SSMClient) (store : String → SsmOutcome)
    (serviceName : String) : String :=
  (getParameter c store serviceName "log.level" "info").1

/-- getRateLimitRpm accessor. -/
def getRateLimitRpm (c : SSMClient) (store : String → SsmOutcome)
    (serviceName : String) : Int :=
  parseIntOrDefault (getParameter c store serviceName "rate.limit.rpm" "60").1 60

example : jsParseInt "123abc" = some 123 := by decide
example : jsParseInt "  -42px" = some (-42) := by decide
example : jsParseInt "" = none := by decide
example : jsParseInt "abc" = none := by decide
example : jsParseInt "+7" = some 7 := by decide
example : refParseInt "123abc" = none := by decide
example : refParseInt "-42" = some (-42) := by decide
example : parseIntOrDefault "0x10" 9 = 0 := by decide

/-- An upstream HTTP response that completed at the transport level. -/
structure Resp where
  status : Nat
  body : String
deriving DecidableEq, Repr

/-- Outcome of one fetch call: the transport either completes with a response
(any HTTP status) or throws (network error or expired AbortSignal deadline). -/
inductive FetchOutcome where
  | success (r : Resp)
  | failure (err : String)
deriving DecidableEq, Repr

/-- Structured log events emitted by fetchWithRetry. -/
inductive LogEvent where
  | warn (url : String) (attempt : Nat) (retryCount : Int) (err : String)
  | info (url : String) (attempt : Nat) (status : Nat)
  | error (url : String) (retryCount : Int) (err : Option String)
deriving DecidableEq, Repr

/-- Result of a fetchWithRetry call: the returned response, or the thrown
value (`none` models the never-assigned `lastError` being undefined). -/
inductive FetchResult where
  | ok (r : Resp)
  | thrown (e : Option String)
deriving DecidableEq, Repr

/-- A completed run of fetchWithRetry: its result, the log events it emitted
in order, and the number of fetch calls it performed. -/
structure FetchRun where
  result : FetchResult
  logs : List LogEvent
  attempts : Nat
deriving DecidableEq, Repr

/-- The retry loop of fetchWithRetry from `app/src/lib/fetchWithRetry.ts`,
with `k` remaining loop iterations, the current attempt index, the current
`lastError`, and the logs and fetch calls so far. On success the response is
returned at once (with a recovery-info log when attempt > 0); on failure a
warning is logged and the loop continues; after the loop an error log is
emitted and `lastError` is thrown. -/
def fetchGo (url : String) (retryCount : Int) (f : Nat → FetchOutcome) :
    Nat → Nat → Option String → List LogEvent → Nat → FetchRun
  | 0, _attempt, lastError, logs, attempts =>
      { result := .thrown lastError
        logs := logs ++ [.error url retryCount lastError]
        attempts := attempts }
  | k + 1, attempt, _lastError, logs, attempts =>
      match f attempt with
      | .success r =>
          { result := .ok r
            logs := logs ++ (if 0 < attempt then [.info url attempt r.status] else [])
            attempts := attempts + 1 }
      | .failure e =>
          fetchGo url retryCount f k (attempt + 1) (some e)
            (logs ++ [.warn url attempt retryCount e]) (attempts + 1)

/-- fetchWithRetry from `app/src/lib/fetchWithRetry.ts`: run the loop
`for (attempt = 0; attempt <= retryCount; attempt++)`, i.e. with
`(retryCount + 1).toNat` iterations; the transport behaviour of the attempt
with index `i` is `f i`. The timeout only parameterises the transport
deadline, whose expiry is already folded into `FetchOutcome.failure`. -/
def fetchWithRetry (url : String) (_timeoutMs : Int) (retryCount : Int)
    (f : Nat → FetchOutcome) : FetchRun :=
  fetchGo url retryCount f (retryCount + 1).toNat 0 none [] 0

/-- Number of warning-level events in a log list. -/
def warnCount (logs : List LogEvent) : Nat :=
  (logs.filter fun e => match e with | .warn _ _ _ _ => true | _ => false).length

/-- Number of info-level events in a log list. -/
def infoCount (logs : List LogEvent) : Nat :=
  (logs.filter fun e => match e with | .info _ _ _ => true | _ => false).length

/-- Number of error-level events in a log list. -/
def errorCount (logs : List LogEvent) : Nat :=
  (logs.filter fun e => match e with | .error _ _ _ => true | _ => false).length

/-- The fixed external error payload of the proxy handlers,
JSON.stringify of the service-unavailable message object. -/
def serviceUnavailableBody : String :=
  "\x7b\"message\":\"Service temporarily unavailable\"\x7d"

/-- An external response produced by a proxy handler: status, body
(`none` models a null body), and content type header. -/
structure ExternalResponse where
  status : Nat
  body : Option String
  contentType : String
deriving DecidableEq, Repr

/-- What a route handler does with a forwarding outcome: produce an external
response, or let the error escape the handler. -/
inductive HandlerOutcome where
  | response (r : ExternalResponse)
  | thrown (e : Option String)
deriving DecidableEq, Repr

/-- A JSON response as built by the handlers:
`new Response(body, ⟨status, content-type application-json⟩)`. -/
def respondJson (status : Nat) (body : Option String) : ExternalResponse :=
  ⟨status, body, "application/json"⟩

/-- GET of `app/src/pages/api/greetings/index.ts`, as a function of the
fetchWithRetry outcome: pass the upstream body and status through, and
translate a propagated failure into the fixed 502 response. -/
def indexGET (fr : FetchResult) : HandlerOutcome :=
  match fr with
  | .ok r => .response (respondJson r.status (some r.body))
  | .thrown _ => .response (respondJson 502 (some serviceUnavailableBody))

/-- POST of `app/src/pages/api/greetings/index.ts`, same error boundary as
the collection GET. -/
def indexPOST (fr : FetchResult) : HandlerOutcome :=
  match fr with
  | .ok r => .response (respondJson r.status (some r.body))
  | .thrown _ => .response (respondJson 502 (some serviceUnavailableBody))

/-- GET of `app/src/pages/api/greetings/[id].ts` as present on disk: no
try/catch, so a propagated forwarder failure escapes the handler. -/
def idGET (fr : FetchResult) : HandlerOutcome :=
  match fr with
  | .ok r => .response (respondJson r.status (some r.body))
  | .thrown e => .thrown e

/-- DELETE of `app/src/pages/api/greetings/[id].ts` as present on disk:
`res.status === 204 ? null : await res.text()` decides the body from the
status code alone; no try/catch around the forwarder. -/
def idDELETE (fr : FetchResult) : HandlerOutcome :=
  match fr with
  | .ok r => .response (respondJson r.status (if r.status = 204 then none else some r.body))
  | .thrown e => .thrown e

/-- GET of the by-id route in the variant shipped alongside the tests and
docs (the unnamed sibling source file): forwarder failures are caught and
mapped to the fixed 502 response. -/
def idGETCaught (fr : FetchResult) : HandlerOutcome :=
  match fr with
  | .ok r => .response (respondJson r.status (some r.body))
  | .thrown _ => .response (respondJson 502 (some serviceUnavailableBody))

/-- DELETE of the by-id route in the variant shipped alongside the tests and
docs: 204 yields a null body, and forwarder failures are caught. -/
def idDELETECaught (fr : FetchResult) : HandlerOutcome :=
  match fr with
  | .ok r => .response (respondJson r.status (if r.status = 204 then none else some r.body))
  | .thrown _ => .response (respondJson 502 (some serviceUnavailableBody))

@[simp] lemma warnCount_nil : warnCount [] = 0 := rfl

@[simp] lemma infoCount_nil : infoCount [] = 0 := rfl

@[simp] lemma errorCount_nil : errorCount [] = 0 := rfl

@[simp] lemma warnCount_append (l₁ l₂ : List LogEvent) :
    warnCount (l₁ ++ l₂) = warnCount l₁ + warnCount l₂ := by
  simp [warnCount]

@[simp] lemma infoCount_append (l₁ l₂ : List LogEvent) :
    infoCount (l₁ ++ l₂) = infoCount l₁ + infoCount l₂ := by
  simp [infoCount]

@[simp] lemma errorCount_append (l₁ l₂ : List LogEvent) :
    errorCount (l₁ ++ l₂) = errorCount l₁ + errorCount l₂ := by
  simp [errorCount]

@[simp] lemma warnCount_cons_warn (u : String) (a : Nat) (rc : Int) (e : String)
    (l : List LogEvent) : warnCount (LogEvent.warn u a rc e :: l) = warnCount l + 1 := by
  simp [warnCount, List.filter]

@[simp] lemma warnCount_cons_info (u : String) (a s : Nat) (l : List LogEvent) :
    warnCount (LogEvent.info u a s :: l) = warnCount l := by
  simp [warnCount, List.filter]

@[simp] lemma warnCount_cons_error (u : String) (rc : Int) (e : Option String)
    (l : List LogEvent) : warnCount (LogEvent.error u rc e :: l) = warnCount l := by
  simp [warnCount, List.filter]

@[simp] lemma infoCount_cons_warn (u : String) (a : Nat) (rc : Int) (e : String)
    (l : List LogEvent) : infoCount (LogEvent.warn u a rc e :: l) = infoCount l := by
  simp [infoCount, List.filter]

@[simp] lemma infoCount_cons_info (u : String) (a s : Nat) (l : List LogEvent) :
    infoCount (LogEvent.info u a s :: l) = infoCount l + 1 := by
  simp [infoCount, List.filter]

@[simp] lemma infoCount_cons_error (u : String) (rc : Int) (e : Option String)
    (l : List LogEvent) : infoCount (LogEvent.error u rc e :: l) = infoCount l := by
  simp [infoCount, List.filter]

@[simp] lemma errorCount_cons_warn (u : String) (a : Nat) (rc : Int) (e : String)
    (l : List LogEvent) : errorCount (LogEvent.warn u a rc e :: l) = errorCount l := by
  simp [errorCount, List.filter]

@[simp] lemma errorCount_cons_info (u : String) (a s : Nat) (l : List LogEvent) :
    errorCount (LogEvent.info u a s :: l) = errorCount l := by
  simp [errorCount, List.filter]

@[simp] lemma errorCount_cons_error (u : String) (rc : Int) (e : Option String)
    (l : List LogEvent) : errorCount (LogEvent.error u rc e :: l) = errorCount l + 1 := by
  simp [errorCount, List.filter]

lemma fetchGo_zero (url : String) (rc : Int) (f : Nat → FetchOutcome)
    (attempt : Nat) (le : Option String) (logs : List LogEvent) (a : Nat) :
    fetchGo url rc f 0 attempt le logs a =
      ⟨.thrown le, logs ++ [.error url rc le], a⟩ := rfl

lemma fetchGo_succ_success (url : String) (rc : Int) (f : Nat → FetchOutcome)
    (k attempt : Nat) (le : Option String) (logs : List LogEvent) (a : Nat)
    (r : Resp) (h : f attempt = .success r) :
    fetchGo url rc f (k + 1) attempt le logs a =
      ⟨.ok r, logs ++ (if 0 < attempt then [.info url attempt r.status] else []), a + 1⟩ := by
  simp [fetchGo, h]

lemma fetchGo_succ_failure (url : String) (rc : Int) (f : Nat → FetchOutcome)
    (k attempt : Nat) (le : Option String) (logs : List LogEvent) (a : Nat)
    (e : String) (h : f attempt = .failure e) :
    fetchGo url rc f (k + 1) attempt le logs a =
      fetchGo url rc f k (attempt + 1) (some e)
        (logs ++ [.warn url attempt rc e]) (a + 1) := by
  simp [fetchGo, h]

lemma fetchGo_allFail (url : String) (rc : Int) (err : Nat → String)
    (f : Nat → FetchOutcome) (hf : ∀ i, f i = .failure (err i)) (k : Nat) :
    ∀ (attempt : Nat) (le : Option String) (logs : List LogEvent) (a : Nat),
      (fetchGo url rc f (k + 1) attempt le logs a).result =
        .thrown (some (err (attempt + k))) ∧
      (fetchGo url rc f (k + 1) attempt le logs a).attempts = a + k + 1 ∧
      warnCount (fetchGo url rc f (k + 1) attempt le logs a).logs =
        warnCount logs + (k + 1) ∧
      infoCount (fetchGo url rc f (k + 1) attempt le logs a).logs = infoCount logs ∧
      errorCount (fetchGo url rc f (k + 1) attempt le logs a).logs =
        errorCount logs + 1 := by
  induction k with
  | zero =>
      intro attempt le logs a
      rw [fetchGo_succ_failure url rc f 0 attempt le logs a (err attempt) (hf attempt),
        fetchGo_zero]
      refine ⟨by simp, rfl, by simp, by simp, by simp⟩
  | succ k ih =>
      intro attempt le logs a
      rw [fetchGo_succ_failure url rc f (k + 1) attempt le logs a (err attempt) (hf attempt)]
      obtain ⟨g1, g2, g3, g4, g5⟩ := ih (attempt + 1) (some (err attempt))
        (logs ++ [.warn url attempt rc (err attempt)]) (a + 1)
      refine ⟨?_, ?_, ?_, ?_, ?_⟩
      · rw [g1]
        have hh : attempt + 1 + k = attempt + (k + 1) := by omega
        rw [hh]
      · rw [g2]; omega
      · rw [g3]; simp; omega
      · rw [g4]; simp
      · rw [g5]; simp

lemma fetchGo_succeedsAt (url : String) (rc : Int) (f : Nat → FetchOutcome)
    (err : Nat → String) (resp : Resp) (N : Nat)
    (hN : ∀ i, i < N → f i = .failure (err i)) (hS : f N = .success resp) (k : Nat) :
    ∀ (attempt : Nat) (le : Option String) (logs : List LogEvent) (a : Nat),
      attempt ≤ N → N < attempt + k →
      (fetchGo url rc f k attempt le logs a).result = .ok resp ∧
      (fetchGo url rc f k attempt le logs a).attempts = a + (N - attempt) + 1 ∧
      warnCount (fetchGo url rc f k attempt le logs a).logs =
        warnCount logs + (N - attempt) ∧
      infoCount (fetchGo url rc f k attempt le logs a).logs =
        infoCount logs + (if 0 < N then 1 else 0) ∧
      errorCount (fetchGo url rc f k attempt le logs a).logs = errorCount logs := by
  induction k with
  | zero =>
      intro attempt le logs a h1 h2
      exact absurd h2 (by omega)
  | succ k ih =>
      intro attempt le logs a h1 h2
      rcases Nat.lt_or_ge attempt N with hlt | hge
      · rw [fetchGo_succ_failure url rc f k attempt le logs a (err attempt) (hN attempt hlt)]
        obtain ⟨g1, g2, g3, g4, g5⟩ := ih (attempt + 1) (some (err attempt))
          (logs ++ [.warn url attempt rc (err attempt)]) (a + 1) (by omega) (by omega)
        refine ⟨g1, ?_, ?_, ?_, ?_⟩
        · rw [g2]; omega
        · rw [g3]; simp; omega
        · rw [g4]; simp
        · rw [g5]; simp
      · have heq : attempt = N := le_antisymm h1 hge
        subst heq
        rw [fetchGo_succ_success url rc f k attempt le logs a resp hS]
        refine ⟨rfl, by simp, ?_, ?_, ?_⟩
        · by_cases h0 : 0 < attempt <;> simp [h0]
        · by_cases h0 : 0 < attempt <;> simp [h0]
        · by_cases h0 : 0 < attempt <;> simp [h0]

/-- Claim C1: with retryCount N, when every attempt fails at the transport
level, fetchWithRetry performs exactly N + 1 attempts, emits exactly N + 1
warning logs and exactly one error log and no recovery log, and throws the
error of the last attempt instead of returning a synthetic response. -/
theorem fetchWithRetry_all_attempts_fail (url : String) (t : Int) (N : Nat)
    (err : Nat → String) :
    (fetchWithRetry url t N (fun i => .failure (err i))).attempts = N + 1 ∧
    warnCount (fetchWithRetry url t N (fun i => .failure (err i))).logs = N + 1 ∧
    errorCount (fetchWithRetry url t N (fun i => .failure (err i))).logs = 1 ∧
    infoCount (fetchWithRetry url t N (fun i => .failure (err i))).logs = 0 ∧
    (fetchWithRetry url t N (fun i => .failure (err i))).result =
      .thrown (some (err N)) := by
  have hk : ((N : Int) + 1).toNat = N + 1 := by omega
  have h := fetchGo_allFail url (N : Int) err (fun i => .failure (err i))
    (fun i => rfl) N 0 none [] 0
  rw [show fetchWithRetry url t (N : Int) (fun i => .failure (err i)) =
      fetchGo url (N : Int) (fun i => .failure (err i)) ((N : Int) + 1).toNat 0 none [] 0
    from rfl, hk]
  exact ⟨by simpa using h.2.1, by simpa using h.2.2.1, by simpa using h.2.2.2.2,
    by simpa using h.2.2.2.1, by simpa using h.1⟩

/-- Claim C2: with retryCount N at least 1, when the first N attempts fail at
the transport level and attempt N + 1 completes, fetchWithRetry performs
exactly N + 1 attempts, emits exactly N warning logs and exactly one
recovery-info log and no error log, and returns the completed response. -/
theorem fetchWithRetry_recovers_after_failures (url : String) (t : Int) (N : Nat)
    (hN : 1 ≤ N) (err : Nat → String) (resp : Resp) :
    (fetchWithRetry url t N
      (fun i => if i < N then .failure (err i) else .success resp)).result = .ok resp ∧
    (fetchWithRetry url t N
      (fun i => if i < N then .failure (err i) else .success resp)).attempts = N + 1 ∧
    warnCount (fetchWithRetry url t N
      (fun i => if i < N then .failure (err i) else .success resp)).logs = N ∧
    infoCount (fetchWithRetry url t N
      (fun i => if i < N then .failure (err i) else .success resp)).logs = 1 ∧
    errorCount (fetchWithRetry url t N
      (fun i => if i < N then .failure (err i) else .success resp)).logs = 0 := by
  have hk : ((N : Int) + 1).toNat = N + 1 := by omega
  have h := fetchGo_succeedsAt url (N : Int)
    (fun i => if i < N then .failure (err i) else .success resp) err resp N
    (fun i hi => by simp [hi]) (by simp) (N + 1) 0 none [] 0 (by omega) (by omega)
  rw [show fetchWithRetry url t (N : Int)
        (fun i => if i < N then .failure (err i) else .success resp) =
      fetchGo url (N : Int) (fun i => if i < N then .failure (err i) else .success resp)
        ((N : Int) + 1).toNat 0 none [] 0
    from rfl, hk]
  refine ⟨h.1, by simpa using h.2.1, by simpa using h.2.2.1, ?_, by simpa using h.2.2.2.2⟩
  have hpos : 0 < N := hN
  simpa [hpos] using h.2.2.2.1

/-- Witness for claim C2 at N = 2: two transport failures followed by one
completed response give a recovered call with two warnings and one info log. -/
theorem fetchWithRetry_recovers_after_failures_witness :
    (fetchWithRetry "http://backend/api/v1/greetings" 5000 2
      (fun i => if i < 2 then .failure "boom" else .success ⟨200, "[]"⟩)).result =
      .ok ⟨200, "[]"⟩ ∧
    (fetchWithRetry "http://backend/api/v1/greetings" 5000 2
      (fun i => if i < 2 then .failure "boom" else .success ⟨200, "[]"⟩)).attempts = 3 ∧
    warnCount (fetchWithRetry "http://backend/api/v1/greetings" 5000 2
      (fun i => if i < 2 then .failure "boom" else .success ⟨200, "[]"⟩)).logs = 2 ∧
    infoCount (fetchWithRetry "http://backend/api/v1/greetings" 5000 2
      (fun i => if i < 2 then .failure "boom" else .success ⟨200, "[]"⟩)).logs = 1 := by
  have h := fetchWithRetry_recovers_after_failures "http://backend/api/v1/greetings" 5000 2
    (by omega) (fun _ => "boom") ⟨200, "[]"⟩
  exact ⟨h.1, h.2.1, h.2.2.1, h.2.2.2.1⟩

/-- Claim C3: whenever the first attempt completes at the transport level,
whatever its HTTP status, fetchWithRetry performs exactly one attempt, emits
no logs, and returns that response unchanged. -/
theorem fetchWithRetry_completed_response_single_attempt (url : String) (t : Int)
    (rc : Nat) (f : Nat → FetchOutcome) (r : Resp) (h : f 0 = .success r) :
    fetchWithRetry url t rc f = ⟨.ok r, [], 1⟩ := by
  have hk : ((rc : Int) + 1).toNat = rc + 1 := by omega
  rw [show fetchWithRetry url t (rc : Int) f =
      fetchGo url (rc : Int) f ((rc : Int) + 1).toNat 0 none [] 0 from rfl, hk,
    fetchGo_succ_success url (rc : Int) f rc 0 none [] 0 r h]
  simp

/-- Witness for claim C3: a 404 response on the first attempt is returned
as-is after exactly one attempt, with retryCount 3 left unconsumed. -/
theorem fetchWithRetry_completed_response_single_attempt_witness :
    fetchWithRetry "http://backend/api/v1/greetings/42" 5000 3
      (fun _ => .success ⟨404, "not found"⟩) = ⟨.ok ⟨404, "not found"⟩, [], 1⟩ :=
  fetchWithRetry_completed_response_single_attempt
    "http://backend/api/v1/greetings/42" 5000 3 _ _ rfl

/-- Claim C10: the relaxed parse accepts "-1" as retry count, and with
retryCount -1 the loop `attempt <= retryCount` never runs: fetchWithRetry
performs zero fetch attempts, emits no warning log (only the exhaustion
error log), and throws the never-assigned lastError, modelled as `none`. -/
theorem fetchWithRetry_negative_retry_count (url : String) (t : Int)
    (f : Nat → FetchOutcome) :
    parseIntOrDefault "-1" 3 = -1 ∧
    fetchWithRetry url t (-1) f = ⟨.thrown none, [.error url (-1) none], 0⟩ := by
  refine ⟨by decide, ?_⟩
  rw [show fetchWithRetry url t (-1) f =
      fetchGo url (-1) f ((-1 : Int) + 1).toNat 0 none [] 0 from rfl]
  norm_num
  rw [fetchGo_zero]
  simp

lemma isJsWhitespace_false_of_isDigit (c : Char) (h : isDigit c = true) :
    isJsWhitespace c = false := by
  cases hw : isJsWhitespace c
  · rfl
  · exfalso
    simp only [isJsWhitespace, Bool.or_eq_true, decide_eq_true_eq] at hw
    rcases hw with ((((h1 | h1) | h1) | h1) | h1) | h1 <;> subst h1 <;>
      exact absurd h (by decide)

lemma leadingDigitsVal_of_allDigitsVal (cs : List Char) :
    ∀ (acc n : Nat), allDigitsVal cs acc = some n → leadingDigitsVal cs acc = n := by
  induction cs with
  | nil =>
      intro acc n h
      simp only [allDigitsVal, Option.some.injEq] at h
      simpa [leadingDigitsVal] using h
  | cons c rest ih =>
      intro acc n h
      by_cases hc : isDigit c
      · simp only [allDigitsVal, hc, if_true] at h
        simp only [leadingDigitsVal, hc, if_true]
        exact ih _ n h
      · simp [allDigitsVal, hc] at h

lemma leadingDigits_of_refDigits (cs : List Char) (n : Nat)
    (h : refDigits cs = some n) : leadingDigits cs = some n := by
  cases cs with
  | nil => simp [refDigits] at h
  | cons c rest =>
      by_cases hc : isDigit c
      · simp only [refDigits, hc, if_true] at h
        simp only [leadingDigits, hc, if_true, Option.some.injEq]
        exact leadingDigitsVal_of_allDigitsVal rest _ n h
      · simp [refDigits, hc] at h

lemma refDigits_head_digit (c : Char) (rest : List Char) (n : Nat)
    (h : refDigits (c :: rest) = some n) : isDigit c = true := by
  by_cases hc : isDigit c
  · exact hc
  · simp [refDigits, hc] at h

lemma refParseIntCore_cons (c : Char) (rest : List Char) :
    refParseIntCore (c :: rest) =
      if c = '-' then (refDigits rest).map (fun n : Nat => -(n : Int))
      else if c = '+' then (refDigits rest).map (fun n : Nat => (n : Int))
      else (refDigits (c :: rest)).map (fun n : Nat => (n : Int)) := rfl

lemma jsParseIntCore_cons (c : Char) (rest : List Char)
    (hws : isJsWhitespace c = false) :
    jsParseIntCore (c :: rest) =
      if c = '-' then (leadingDigits rest).map (fun n : Nat => -(n : Int))
      else if c = '+' then (leadingDigits rest).map (fun n : Nat => (n : Int))
      else (leadingDigits (c :: rest)).map (fun n : Nat => (n : Int)) := by
  simp [jsParseIntCore, List.dropWhile_cons, hws]

lemma jsParseIntCore_of_refParseIntCore (cs : List Char) (n : Int)
    (h : refParseIntCore cs = some n) : jsParseIntCore cs = some n := by
  cases cs with
  | nil => simp [refParseIntCore] at h
  | cons c rest =>
      by_cases hminus : c = '-'
      · subst hminus
        rw [refParseIntCore_cons, if_pos rfl, Option.map_eq_some'] at h
        obtain ⟨m, hm, hneg⟩ := h
        rw [jsParseIntCore_cons '-' rest (by decide), if_pos rfl,
          leadingDigits_of_refDigits rest m hm]
        simpa using hneg
      · by_cases hplus : c = '+'
        · subst hplus
          rw [refParseIntCore_cons, if_neg (by decide), if_pos rfl,
            Option.map_eq_some'] at h
          obtain ⟨m, hm, hcast⟩ := h
          rw [jsParseIntCore_cons '+' rest (by decide), if_neg (by decide),
            if_pos rfl, leadingDigits_of_refDigits rest m hm]
          simpa using hcast
        · rw [refParseIntCore_cons, if_neg hminus, if_neg hplus,
            Option.map_eq_some'] at h
          obtain ⟨m, hm, hcast⟩ := h
          have hc : isDigit c = true := refDigits_head_digit c rest m hm
          have hws : isJsWhitespace c = false := isJsWhitespace_false_of_isDigit c hc
          rw [jsParseIntCore_cons c rest hws, if_neg hminus, if_neg hplus,
            leadingDigits_of_refDigits (c :: rest) m hm]
          simpa using hcast

lemma jsParseInt_of_refParseInt (s : String) (n : Int)
    (h : refParseInt s = some n) : jsParseInt s = some n :=
  jsParseIntCore_of_refParseIntCore s.data n h

lemma parseIntOrDefault_eq_of_ref (s : String) (n fb : Int)
    (h : refParseInt s = some n) : parseIntOrDefault s fb = n := by
  simp [parseIntOrDefault, jsParseInt_of_refParseInt s n h]

/-- Claim C5 counterexample: "123abc" is not a valid base-10 integer numeral
(the reference parser rejects it), yet parseIntOrDefault returns 123, the
value of the numeric prefix, instead of the fallback 5. -/
theorem parseIntOrDefault_nonstrict_counterexample :
    refParseInt "123abc" = none ∧ parseIntOrDefault "123abc" 5 = 123 ∧
    (123 : Int) ≠ 5 := ⟨by decide, by decide, by decide⟩

/-- Claim C5 (amended): on every valid base-10 integer numeral the parser
agrees with the reference parser; it returns the fallback exactly when
parseInt finds no leading integer (the NaN case), and otherwise returns the
integer of the longest parsable prefix — it is total, so it never returns
NaN and never throws. -/
theorem parseIntOrDefault_prefix_semantics (s : String) (fb : Int) :
    (∀ n : Int, refParseInt s = some n → parseIntOrDefault s fb = n) ∧
    (jsParseInt s = none → parseIntOrDefault s fb = fb) ∧
    (∀ m : Int, jsParseInt s = some m → parseIntOrDefault s fb = m) :=
  ⟨fun n h => parseIntOrDefault_eq_of_ref s n fb h,
   fun h => by simp [parseIntOrDefault, h],
   fun m h => by simp [parseIntOrDefault, h]⟩

/-- Witness for claim C5 (amended): the valid numeral "-42" parses to -42 and
the digit-free string "abc" yields the fallback 7. -/
theorem parseIntOrDefault_prefix_semantics_witness :
    parseIntOrDefault "-42" 7 = -42 ∧ parseIntOrDefault "abc" 7 = 7 :=
  ⟨(parseIntOrDefault_prefix_semantics "-42" 7).1 (-42) (by decide),
   (parseIntOrDefault_prefix_semantics "abc" 7).2.1 (by decide)⟩

/-- Claim C4: every defined accessor returns its static fallback whenever the
store call fails — in particular, with the store fully unreachable, the
backend URL accessor returns http://localhost:8080, the timeout accessor
5000 and the retry-count accessor 3 — and returns the stored value when the
call succeeds with a present value, parsed as a base-10 integer for the
numeric settings (agreeing with the reference parser on valid numerals). -/
theorem config_accessors_fallback_and_store_value (c : SSMClient) (sn : String) :
    (∀ store : String → SsmOutcome, (∀ k, store k = .failure) →
      loadDescription c store sn = DEFAULT_DESCRIPTION ∧
      getApiBackendUrl c store sn = "http://localhost:8080" ∧
      getApiTimeoutMs c store sn = 5000 ∧
      getApiRetryCount c store sn = 3 ∧
      getLogLevel c store sn = "info" ∧
      getRateLimitRpm c store sn = 60) ∧
    (∀ (store : String → SsmOutcome) (v : String),
      (store (paramKey sn "app.description") = .success (some v) →
        loadDescription c store sn = v) ∧
      (store (paramKey sn "api.backend.url") = .success (some v) →
        getApiBackendUrl c store sn = v) ∧
      (store (paramKey sn "log.level") = .success (some v) →
        getLogLevel c store sn = v) ∧
      (store (paramKey sn "api.timeout.ms") = .success (some v) →
        getApiTimeoutMs c store sn = parseIntOrDefault v 5000) ∧
      (store (paramKey sn "api.retry.count") = .success (some v) →
        getApiRetryCount c store sn = parseIntOrDefault v 3) ∧
      (store (paramKey sn "rate.limit.rpm") = .success (some v) →
        getRateLimitRpm c store sn = parseIntOrDefault v 60)) ∧
    (∀ (store : String → SsmOutcome) (v : String) (n : Int),
      refParseInt v = some n →
      store (paramKey sn "api.retry.count") = .success (some v) →
      getApiRetryCount c store sn = n) := by
  refine ⟨?_, ?_, ?_⟩
  · intro store hstore
    refine ⟨?_, ?_, ?_, ?_, ?_, ?_⟩ <;>
        simp only [loadDescription, getApiBackendUrl, getApiTimeoutMs,
          getApiRetryCount, getLogLevel, getRateLimitRpm, getParameter, hstore] <;>
      decide
  · intro store v
    refine ⟨?_, ?_, ?_, ?_, ?_, ?_⟩ <;> intro h <;>
      simp [loadDescription, getApiBackendUrl, getLogLevel, getApiTimeoutMs,
        getApiRetryCount, getRateLimitRpm, getParameter, h]
  · intro store v n href hstore
    simp only [getApiRetryCount, getParameter, hstore]
    exact parseIntOrDefault_eq_of_ref v n 3 href

/-- Witness for claim C4: with the store unreachable the backend URL, timeout
and retry-count accessors return their fallbacks, and a stored "5" resolves
the retry count to 5. -/
theorem config_accessors_fallback_and_store_value_witness :
    getApiBackendUrl (createSsmClient none "eu-west-1") (fun _ => .failure)
      "astro-webui" = "http://localhost:8080" ∧
    getApiTimeoutMs (createSsmClient none "eu-west-1") (fun _ => .failure)
      "astro-webui" = 5000 ∧
    getApiRetryCount (createSsmClient none "eu-west-1") (fun _ => .failure)
      "astro-webui" = 3 ∧
    getApiRetryCount (createSsmClient none "eu-west-1")
      (fun _ => .success (some "5")) "astro-webui" = 5 := by
  obtain ⟨hfail, _, href⟩ :=
    config_accessors_fallback_and_store_value (createSsmClient none "eu-west-1") "astro-webui"
  obtain ⟨_, h1, h2, h3, _, _⟩ := hfail (fun _ => .failure) (fun k => rfl)
  exact ⟨h1, h2, h3, href (fun _ => .success (some "5")) "5" 5 (by decide) rfl⟩

/-- Claim C6 (code bug evidence): when the forwarder propagates a failure,
the collection-route handlers translate it into the fixed 502 JSON response,
and so does the by-id variant shipped alongside the tests and docs, but the
on-disk by-id GET and DELETE handlers have no try/catch and let the error
escape instead of honouring the 502 contract. -/
theorem byId_handlers_propagate_forwarder_failure :
    idGET (.thrown (some "fetch failed")) = .thrown (some "fetch failed") ∧
    idDELETE (.thrown (some "fetch failed")) = .thrown (some "fetch failed") ∧
    indexGET (.thrown (some "fetch failed")) =
      .response ⟨502, some serviceUnavailableBody, "application/json"⟩ ∧
    indexPOST (.thrown (some "fetch failed")) =
      .response ⟨502, some serviceUnavailableBody, "application/json"⟩ ∧
    idGETCaught (.thrown (some "fetch failed")) =
      .response ⟨502, some serviceUnavailableBody, "application/json"⟩ ∧
    idDELETECaught (.thrown (some "fetch failed")) =
      .response ⟨502, some serviceUnavailableBody, "application/json"⟩ :=
  ⟨rfl, rfl, rfl, rfl, rfl, rfl⟩

/-- Claim C7: the by-id DELETE relay decides the external body solely from
the upstream status code: a 204 yields status 204 with an empty body whatever
the upstream body holds, and any other status is passed through with its
body exactly. -/
theorem idDELETE_status_driven_relay (r : Resp) :
    (r.status = 204 → idDELETE (.ok r) = .response ⟨204, none, "application/json"⟩) ∧
    (r.status ≠ 204 → idDELETE (.ok r) =
      .response ⟨r.status, some r.body, "application/json"⟩) := by
  constructor
  · intro h; simp [idDELETE, respondJson, h]
  · intro h; simp [idDELETE, respondJson, h]

/-- Witness for claim C7: upstream 204 with a non-empty body still yields an
empty 204 external response; upstream 404 passes body and status through. -/
theorem idDELETE_status_driven_relay_witness :
    idDELETE (.ok ⟨204, "leftover"⟩) = .response ⟨204, none, "application/json"⟩ ∧
    idDELETE (.ok ⟨404, "missing"⟩) =
      .response ⟨404, some "missing", "application/json"⟩ :=
  ⟨(idDELETE_status_driven_relay ⟨204, "leftover"⟩).1 rfl,
   (idDELETE_status_driven_relay ⟨404, "missing"⟩).2 (by decide)⟩

/-- Claim C8 counterexample: with no endpoint override, the constructed
client is not a disabled variant — a get call still performs one store call
(send count 1) and still returns the store's value, not the fallback. -/
theorem createSsmClient_without_endpoint_counterexample :
    (createSsmClient none "eu-west-1").endpoint = none ∧
    (getParameter (createSsmClient none "eu-west-1")
      (fun _ => .success (some "http://from-store:9090")) "astro-webui"
      "api.backend.url" "http://localhost:8080").1 = "http://from-store:9090" ∧
    (getParameter (createSsmClient none "eu-west-1")
      (fun _ => .success (some "http://from-store:9090")) "astro-webui"
      "api.backend.url" "http://localhost:8080").2 = 1 ∧
    ("http://from-store:9090" : String) ≠ "http://localhost:8080" :=
  ⟨rfl, rfl, rfl, by decide⟩

/-- Claim C8 (amended): when the environment provides no endpoint override,
createSsmClient still constructs a client, with no endpoint property and
hence the default service target; every getParameter call performs exactly
one store call; offline, accessors return fallbacks only because that call
fails, not through a fail-fast disabled variant. -/
theorem ssmClient_always_constructed (region : String)
    (store : String → SsmOutcome) (sn name fb : String) :
    createSsmClient none region = ⟨region, none⟩ ∧
    (getParameter (createSsmClient none region) store sn name fb).2 = 1 ∧
    (store (paramKey sn name) = .failure →
      (getParameter (createSsmClient none region) store sn name fb).1 = fb) := by
  refine ⟨rfl, ?_, ?_⟩
  · rcases h : store (paramKey sn name) with _ | v
    · simp [getParameter, h]
    · rcases v with _ | v <;> simp [getParameter, h]
  · intro h; simp [getParameter, h]

/-- Witness for claim C8 (amended): evaluated against an unreachable store,
the get call returns the fallback and performs one send. -/
theorem ssmClient_always_constructed_witness :
    (getParameter (createSsmClient none "eu-west-1") (fun _ => .failure)
      "astro-webui" "api.backend.url" "http://localhost:8080").1 =
      "http://localhost:8080" ∧
    (getParameter (createSsmClient none "eu-west-1") (fun _ => .failure)
      "astro-webui" "api.backend.url" "http://localhost:8080").2 = 1 :=
  ⟨(ssmClient_always_constructed "eu-west-1" (fun _ => .failure)
      "astro-webui" "api.backend.url" "http://localhost:8080").2.2 rfl,
   (ssmClient_always_constructed "eu-west-1" (fun _ => .failure)
      "astro-webui" "api.backend.url" "http://localhost:8080").2.1⟩

/-- Claim C9 counterexample: a successful store call whose value is the
empty string makes the log-level accessor return the empty string, not the
fallback "info". -/
theorem getLogLevel_empty_value_counterexample :
    getLogLevel (createSsmClient (some "http://localhost:4566") "eu-west-1")
      (fun _ => .success (some "")) "astro-webui" = "" ∧
    ("" : String) ≠ "info" := ⟨rfl, by decide⟩

/-- Claim C9 (amended): for string settings a successfully returned value is
passed through as-is, including the empty string — only a client failure or
an absent value yields the fallback; for numeric settings an empty string
then fails the integer parse, so the numeric fallback is returned. -/
theorem stringAccessor_empty_value_passthrough (c : SSMClient)
    (store : String → SsmOutcome) (sn : String) :
    (store (paramKey sn "log.level") = .success (some "") →
      getLogLevel c store sn = "") ∧
    (∀ v, store (paramKey sn "log.level") = .success (some v) →
      getLogLevel c store sn = v) ∧
    (store (paramKey sn "log.level") = .success none →
      getLogLevel c store sn = "info") ∧
    (store (paramKey sn "log.level") = .failure →
      getLogLevel c store sn = "info") ∧
    (∀ v, store (paramKey sn "api.backend.url") = .success (some v) →
      getApiBackendUrl c store sn = v) ∧
    (∀ v, store (paramKey sn "app.description") = .success (some v) →
      loadDescription c store sn = v) ∧
    (store (paramKey sn "api.timeout.ms") = .success (some "") →
      getApiTimeoutMs c store sn = 5000) :=
  ⟨fun h => by simp [getLogLevel, getParameter, h],
   fun v h => by simp [getLogLevel, getParameter, h],
   fun h => by simp [getLogLevel, getParameter, h],
   fun h => by simp [getLogLevel, getParameter, h],
   fun v h => by simp [getApiBackendUrl, getParameter, h],
   fun v h => by simp [loadDescription, getParameter, h],
   fun h => by simp only [getApiTimeoutMs, getParameter, h]; decide⟩

/-- Witness for claim C9 (amended): a stored empty string reaches the
backend-URL accessor unchanged while the timeout accessor falls back. -/
theorem stringAccessor_empty_value_passthrough_witness :
    getApiBackendUrl (createSsmClient none "eu-west-1")
      (fun _ => .success (some "")) "astro-webui" = "" ∧
    getApiTimeoutMs (createSsmClient none "eu-west-1")
      (fun _ => .success (some "")) "astro-webui" = 5000 :=
  ⟨(stringAccessor_empty_value_passthrough (createSsmClient none "eu-west-1")
      (fun _ => .success (some "")) "astro-webui").2.2.2.2.1 "" rfl,
   (stringAccessor_empty_value_passthrough (createSsmClient none "eu-west-1")
      (fun _ => .success (some "")) "astro-webui").2.2.2.2.2.2 rfl⟩

end AstroWebui
